import Mathlib

/-!
Verification of the LangBot chat-logger plugin (src/plugins/chat_logger.py),
shallowly embedded in Lean 4.

Modelling conventions:
* Python values that may be a string or an integer (group ids, sender ids,
  bot account ids) are modelled by `PyId`; `str(x)` is `pyIdStr`.
* Duck-typed attribute probing (`hasattr`) is modelled by `Option` fields:
  `none` means the attribute is absent.
* The plugin object's mutable fields are gathered in `PluginState`; the list
  `records` models the rows of the `chat_records` table in insertion order
  (`id`/`timestamp` are store-assigned and irrelevant to the claims).
* The backend's behaviour on a single commit is an explicit `storeOk : Bool`
  parameter (`true` = the commit succeeds, `false` = it raises); the
  `try/except` blocks of the source make every handler total, which is
  reflected by the handlers being plain Lean functions returning the next
  state.  Database initialization outcomes are the `DbOutcome` type and
  a raised exception is an `Except.error`.
-/

/-- A Python identifier value: the source passes group/sender ids around as
either strings or integers and coerces them with `str(...)`. -/
inductive PyId where
  | str (s : String)
  | num (n : Int)
deriving DecidableEq, Repr

/-- `str(x)` for a `PyId`, as used on lines 111, 134 and 137 of the source. -/
def pyIdStr : PyId → String
  | .str s => s
  | .num n => toString n

/-- One element of `event.message_chain.messages` (lines 164-170): it may
carry a `.text` attribute, a `.content` attribute (whose value is a string,
`Sum.inl`, or some non-string value, `Sum.inr`), and it may itself be a plain
Python string (`isStr`). -/
structure SubPart where
  text : Option String
  content : Option (Sum String Unit)
  isStr : Option String
deriving DecidableEq, Repr

/-- The shapes of `event.message_chain` distinguished by lines 162-179:
a composite object with a `.messages` list, an object with a direct `.text`
attribute, a plain string, or anything else (carrying its `str(...)`
rendering). -/
inductive MessageChain where
  | composite (msgs : List SubPart)
  | directText (t : String)
  | plainStr (s : String)
  | fallback (rendering : String)
deriving DecidableEq, Repr

/-- Text extraction from a message chain, translated from lines 161-179 of
`on_group_message_received`: the composite arm folds over the sub-parts with
the `if hasattr(msg, text) / elif .. / elif ..` chain, the remaining arms
handle a direct text attribute, a plain string, and the `str(...)` fallback. -/
def extract_message_text : MessageChain → String
  | .composite msgs =>
      msgs.foldl
        (fun message_text msg =>
          match msg.text with
          | some t => message_text ++ t
          | none =>
            match msg.content with
            | some (Sum.inl c) => message_text ++ c
            | _ =>
              match msg.isStr with
              | some s => message_text ++ s
              | none => message_text)
        ""
  | .directText t => t
  | .plainStr s => s
  | .fallback r => r

/-- The text a single sub-part contributes, following the spec's wording:
its text field if present, else its content field if that content is a
string, else the sub-part itself if it is a plain string, else nothing. -/
def subPartContribution (msg : SubPart) : String :=
  match msg.text with
  | some t => t
  | none =>
    match msg.content with
    | some (Sum.inl c) => c
    | _ =>
      match msg.isStr with
      | some s => s
      | none => ""

/-- Spec-side normalization of a composite payload: the in-order
concatenation of every sub-part's contribution. -/
def normalize_spec_concat : List SubPart → String
  | [] => ""
  | msg :: rest => subPartContribution msg ++ normalize_spec_concat rest

/-- A row of the `chat_records` table as far as the caller controls it
(`id` and `timestamp` are assigned by the store at insert time). -/
structure ChatRecord where
  user_id : String
  nickname : Option String
  message : String
  group_id : String
  is_bot_message : Bool
deriving DecidableEq, Repr

/-- The mutable fields of `ChatLoggerPlugin` together with the stored rows. -/
structure PluginState where
  engine : Bool
  session_factory : Bool
  database_url : String
  database_name : String
  include_bot_messages : Bool
  group_whitelist : List String
  group_blacklist : List String
  records : List ChatRecord
deriving DecidableEq, Repr

/-- `_should_log_group` (lines 109-121): coerce the group id to a string;
a non-empty whitelist not containing it rejects; then blacklist membership
rejects; otherwise accept.  (`if self.group_whitelist` is Python truthiness
of a list: non-emptiness.) -/
def should_log_group (st : PluginState) (group_id : PyId) : Bool :=
  if st.group_whitelist ≠ [] ∧ pyIdStr group_id ∉ st.group_whitelist then
    false
  else if pyIdStr group_id ∈ st.group_blacklist then false
  else true

/-- The sender object reachable as `ctx.event.query.message_event.sender`
(lines 189-194): it may carry a `nickname` attribute and a `card`
attribute. -/
structure Sender where
  nickname : Option String
  card : Option String
deriving DecidableEq, Repr

/-- A `GroupMessageReceived` event together with the parts of its `query`
the handler probes.  `sender_name` is `some v` when the event object has a
`sender_name` attribute (with string value `v`); `query_sender` is `some s`
when `ctx.event.query.message_event.sender` is reachable. -/
structure GroupMessageEvent where
  launcher_id : PyId
  sender_id : PyId
  sender_name : Option String
  query_sender : Option Sender
  message_chain : MessageChain
deriving DecidableEq, Repr

/-- Nickname resolution of lines 186-194: the event's `sender_name`
attribute if present, else the query sender's `nickname`, else its `card`,
else `None`. -/
def resolve_nickname (e : GroupMessageEvent) : Option String :=
  match e.sender_name with
  | some n => some n
  | none =>
    match e.query_sender with
    | some sender =>
      match sender.nickname with
      | some n => some n
      | none => sender.card
    | none => none

/-- Python's `str.strip()`: remove whitespace from both ends of the string
(used only to test emptiness on lines 182 and 234). -/
def pyStrip (s : String) : String :=
  String.mk
    (((s.data.dropWhile Char.isWhitespace).reverse.dropWhile
        Char.isWhitespace).reverse)

/-- `_save_chat_record` (lines 123-148).  If `session_factory` is unset the
save is skipped with a warning.  Otherwise a row is inserted inside a
session; `storeOk = false` models the session raising, which the
`except` clause on line 147 turns into a log line, leaving the table
unchanged.  In every case the function returns normally. -/
def save_chat_record (st : PluginState) (storeOk : Bool) (user_id : PyId)
    (nickname : Option String) (message : String) (group_id : PyId)
    (is_bot_message : Bool) : PluginState :=
  if ¬ st.session_factory then st
  else if storeOk then
    { st with
      records := st.records ++
        [{ user_id := pyIdStr user_id
           nickname := nickname
           message := message
           group_id := pyIdStr group_id
           is_bot_message := is_bot_message }] }
  else st

/-- `on_group_message_received` (lines 150-206): filter check, text
extraction, empty-after-strip check, nickname resolution, save.  The
surrounding `try/except` never fires in the model because every step is
total. -/
def on_group_message_received (st : PluginState) (storeOk : Bool)
    (e : GroupMessageEvent) : PluginState :=
  if ¬ should_log_group st e.launcher_id then st
  else if pyStrip (extract_message_text e.message_chain) = "" then st
  else
    save_chat_record st storeOk e.sender_id (resolve_nickname e)
      (extract_message_text e.message_chain) e.launcher_id false

/-- A `NormalMessageResponded` event together with the parts of its `query`
the handler probes.  `prefixText` models `event.prefix` and `response_text`
models `event.response_text` (either may be `None`); `adapter_bot_account_id`
is `some b` when `ctx.event.query.adapter.bot_account_id` is reachable. -/
structure BotResponseEvent where
  launcher_type : String
  launcher_id : PyId
  prefixText : Option String
  response_text : Option String
  adapter_bot_account_id : Option PyId
deriving DecidableEq, Repr

/-- Python truthiness of an optional string: `None` and `''` are falsy. -/
def pyStrTruthy : Option String → Bool
  | none => false
  | some s => s ≠ ""

/-- The response text built on lines 227-231: start from `''`, append
`event.prefix` if truthy, then append `event.response_text` if truthy. -/
def bot_full_response (e : BotResponseEvent) : String :=
  let full_response := ""
  let full_response :=
    if pyStrTruthy e.prefixText then full_response ++ e.prefixText.getD ""
    else full_response
  if pyStrTruthy e.response_text then full_response ++ e.response_text.getD ""
  else full_response

/-- Bot user-id resolution of lines 238-240: the adapter's `bot_account_id`
when reachable, else the literal `'bot'`. -/
def resolve_bot_user_id (e : BotResponseEvent) : PyId :=
  match e.adapter_bot_account_id with
  | some b => b
  | none => .str "bot"

/-- `on_normal_message_responded` (lines 208-252): include-bot-messages
gate, launcher-type gate, filter check, response-text construction,
empty-after-strip check, bot-id resolution, save with the constant
nickname `'LangBot'` and `is_bot_message=True`. -/
def on_normal_message_responded (st : PluginState) (storeOk : Bool)
    (e : BotResponseEvent) : PluginState :=
  if ¬ st.include_bot_messages then st
  else if e.launcher_type ≠ "group" then st
  else if ¬ should_log_group st e.launcher_id then st
  else if pyStrip (bot_full_response e) = "" then st
  else
    save_chat_record st storeOk (resolve_bot_user_id e) (some "LangBot")
      (bot_full_response e) e.launcher_id true

/-- An inbound event of either kind, for stating sequence-level invariants. -/
inductive InEvent where
  | group (e : GroupMessageEvent)
  | bot (e : BotResponseEvent)
deriving DecidableEq, Repr

/-- Dispatch one inbound event to its handler. -/
def handleEvent (st : PluginState) (storeOk : Bool) : InEvent → PluginState
  | .group e => on_group_message_received st storeOk e
  | .bot e => on_normal_message_responded st storeOk e

/-- Run a sequence of events, each with its own backend outcome. -/
def runEvents (st : PluginState) : List (Bool × InEvent) → PluginState
  | [] => st
  | (ok, ev) :: rest => runEvents (handleEvent st ok ev) rest

/-- Outcome of the backend calls made during `_init_database`:
`create_async_engine` may raise (`engineFail`), the schema-creation
transaction may raise (`schemaFail`), or both succeed. -/
inductive DbOutcome where
  | ok
  | engineFail (msg : String)
  | schemaFail (msg : String)
deriving DecidableEq, Repr

/-- `_init_database` (lines 86-107): on success the engine and session
factory are set; any backend failure is logged and re-raised by the
`except` clause, which the model renders as `Except.error`.  (On
`schemaFail` the Python object has already assigned `engine` and
`session_factory`, but the exception propagates, so no `Ready` state is
produced.) -/
def init_database (st : PluginState) (o : DbOutcome) :
    Except String PluginState :=
  match o with
  | .engineFail msg => .error msg
  | .schemaFail msg => .error msg
  | .ok => .ok { st with engine := true, session_factory := true }

/-- The `config` dictionary read on lines 67-72; `none` means the key is
absent and the field keeps its default. -/
structure PluginConfig where
  database_url : Option String
  database_name : Option String
  include_bot_messages : Option Bool
  group_whitelist : Option (List String)
  group_blacklist : Option (List String)
deriving Repr

/-- `initialize` (lines 63-84): load configuration with defaults, then
initialize the database; any exception is logged and re-raised
(`raise` on line 84), so a database failure surfaces as `Except.error`. -/
def initializePlugin (st : PluginState) (config : PluginConfig) (o : DbOutcome) :
    Except String PluginState :=
  let st :=
    { st with
      database_url := config.database_url.getD st.database_url
      database_name := config.database_name.getD st.database_name
      include_bot_messages :=
        config.include_bot_messages.getD st.include_bot_messages
      group_whitelist := config.group_whitelist.getD st.group_whitelist
      group_blacklist := config.group_blacklist.getD st.group_blacklist }
  init_database st o

/-- `destroy` (lines 254-261): if `self.engine` is set, `engine.dispose()`
is awaited; any exception is caught and logged.  The second component
counts how many `dispose` calls this invocation performs.  Note the source
never clears `self.engine`, so the state is returned unchanged. -/
def destroy (st : PluginState) : PluginState × Nat :=
  if st.engine then (st, 1) else (st, 0)

/-- The record the group-message handler constructs for an event `e`. -/
def groupRecordOf (e : GroupMessageEvent) : ChatRecord :=
  { user_id := pyIdStr e.sender_id
    nickname := resolve_nickname e
    message := extract_message_text e.message_chain
    group_id := pyIdStr e.launcher_id
    is_bot_message := false }

/-- The record the bot-response handler constructs for an event `e`. -/
def botRecordOf (e : BotResponseEvent) : ChatRecord :=
  { user_id := pyIdStr (resolve_bot_user_id e)
    nickname := some "LangBot"
    message := bot_full_response e
    group_id := pyIdStr e.launcher_id
    is_bot_message := true }

lemma str_append_assoc (a b c : String) : a ++ b ++ c = a ++ (b ++ c) := by
  apply String.ext
  simp [String.data_append, List.append_assoc]

lemma extract_composite_step (acc : String) (msg : SubPart) :
    (match msg.text with
      | some t => acc ++ t
      | none =>
        match msg.content with
        | some (Sum.inl c) => acc ++ c
        | _ =>
          match msg.isStr with
          | some s => acc ++ s
          | none => acc)
      = acc ++ subPartContribution msg := by
  rcases msg with ⟨t, c, s⟩
  unfold subPartContribution
  rcases t with _ | t
  · rcases c with _ | c
    · rcases s with _ | s <;> simp [String.append_empty]
    · rcases c with c | c
      · rfl
      · rcases s with _ | s <;> simp [String.append_empty]
  · rfl

lemma extract_composite_foldl (msgs : List SubPart) : ∀ acc : String,
    msgs.foldl
        (fun message_text msg =>
          match msg.text with
          | some t => message_text ++ t
          | none =>
            match msg.content with
            | some (Sum.inl c) => message_text ++ c
            | _ =>
              match msg.isStr with
              | some s => message_text ++ s
              | none => message_text) acc
      = acc ++ normalize_spec_concat msgs := by
  induction msgs with
  | nil => intro acc; simp [normalize_spec_concat, String.append_empty]
  | cons m ms ih =>
    intro acc
    rw [List.foldl_cons, extract_composite_step, ih]
    simp only [normalize_spec_concat]
    rw [str_append_assoc]

/-- Claim C1: the eligibility decision `_should_log_group` returns `true`
exactly when the (string-coerced) group id is allowed by the whitelist
(which is either empty or contains it) and is outside the blacklist; under
empty whitelist and blacklist every group is eligible; and a group listed in
a non-empty whitelist and in the blacklist is rejected (blacklist wins after
the whitelist passes). -/
theorem c1_should_log_group (st : PluginState) (g : PyId) :
    (should_log_group st g = true ↔
      (st.group_whitelist = [] ∨ pyIdStr g ∈ st.group_whitelist) ∧
        pyIdStr g ∉ st.group_blacklist) ∧
    (st.group_whitelist = [] → st.group_blacklist = [] →
      should_log_group st g = true) ∧
    (st.group_whitelist ≠ [] → pyIdStr g ∈ st.group_whitelist →
      pyIdStr g ∈ st.group_blacklist → should_log_group st g = false) := by
  unfold should_log_group
  refine ⟨?_, ?_, ?_⟩
  · split_ifs <;> simp_all
    tauto
  · intro hw hb
    split_ifs <;> simp_all
  · intro hw hmem hb
    split_ifs <;> simp_all

/-- Witness for C1 at a concrete policy: the id `A` lies in both the
non-empty whitelist and the blacklist, and `_should_log_group` rejects it. -/
theorem c1_should_log_group_witness :
    should_log_group
        { engine := true, session_factory := true,
          database_url := "sqlite+aiosqlite:///./chat_logs.db",
          database_name := "langbot_chat", include_bot_messages := true,
          group_whitelist := ["A"], group_blacklist := ["A"], records := [] }
        (.str "A") = false :=
  (c1_should_log_group _ (.str "A")).2.2 (by decide) (by decide) (by decide)

/-- Claim C4: on a composite payload, extraction returns the in-order
concatenation of each sub-part's contribution (text field first, else
string-valued content field, else the sub-part itself when it is a plain
string, else nothing). -/
theorem c4_composite_concatenation (msgs : List SubPart) :
    extract_message_text (.composite msgs) = normalize_spec_concat msgs := by
  simp only [extract_message_text]
  rw [extract_composite_foldl, String.empty_append]

/-- Claim C5: normalization is a total, pure function of the payload — every
message-chain shape yields a string result — and a payload matching none of
the three structured shapes degrades to its generic string rendering. -/
theorem c5_normalization_total :
    (∀ c : MessageChain, ∃ s : String, extract_message_text c = s) ∧
    (∀ r : String, extract_message_text (.fallback r) = r) :=
  ⟨fun c => ⟨extract_message_text c, rfl⟩, fun _ => rfl⟩

lemma save_chat_record_fail (st : PluginState) (u : PyId) (n : Option String)
    (m : String) (g : PyId) (b : Bool) :
    save_chat_record st false u n m g b = st := by
  unfold save_chat_record
  split_ifs <;> simp_all

lemma save_chat_record_noinit (st : PluginState) (h : st.session_factory = false)
    (ok : Bool) (u : PyId) (n : Option String) (m : String) (g : PyId)
    (b : Bool) : save_chat_record st ok u n m g b = st := by
  unfold save_chat_record
  split_ifs <;> simp_all

lemma bot_full_response_eq (e : BotResponseEvent) :
    bot_full_response e = e.prefixText.getD "" ++ e.response_text.getD "" := by
  unfold bot_full_response
  rcases e.prefixText with _ | p
  · rcases e.response_text with _ | r
    · simp [pyStrTruthy, String.append_empty]
    · by_cases hr : r = "" <;>
        simp [pyStrTruthy, hr, String.empty_append, String.append_empty]
  · rcases e.response_text with _ | r
    · by_cases hp : p = "" <;>
        simp [pyStrTruthy, hp, String.empty_append, String.append_empty]
    · by_cases hp : p = "" <;> by_cases hr : r = "" <;>
        simp [pyStrTruthy, hp, hr, String.empty_append, String.append_empty]

/-- Claim C2: with the store initialized and the backend commit succeeding,
a group-message event persists exactly one record — with `user_id` the
string form of the sender id, `nickname` the resolved display name,
`message` the normalized text, `group_id` the string form of the launcher
id, and `is_bot_message = false` — precisely when the group passes the
filter and the normalized text is not empty or whitespace-only; otherwise
the stored records are unchanged. -/
theorem c2_group_message_persistence (st : PluginState)
    (e : GroupMessageEvent) (hready : st.session_factory = true) :
    (should_log_group st e.launcher_id = true ∧
        pyStrip (extract_message_text e.message_chain) ≠ "" →
      (on_group_message_received st true e).records
        = st.records ++ [groupRecordOf e]) ∧
    (¬ (should_log_group st e.launcher_id = true ∧
          pyStrip (extract_message_text e.message_chain) ≠ "") →
      (on_group_message_received st true e).records = st.records) := by
  unfold on_group_message_received save_chat_record
  constructor
  · rintro ⟨hlog, htext⟩
    split_ifs <;> simp_all [groupRecordOf]
  · intro h
    split_ifs <;> simp_all

/-- Witness for C2: end-to-end scenario 1 of the spec — an unrestricted
policy and the plain-text message `hello` yield exactly one record. -/
theorem c2_group_message_persistence_witness :
    (on_group_message_received
          { engine := true, session_factory := true,
            database_url := "sqlite+aiosqlite:///./chat_logs.db",
            database_name := "langbot_chat", include_bot_messages := true,
            group_whitelist := [], group_blacklist := [], records := [] }
          true
          { launcher_id := .str "g1", sender_id := .str "u1",
            sender_name := some "Alice", query_sender := none,
            message_chain := .plainStr "hello" }).records
      = [] ++ [groupRecordOf
          { launcher_id := .str "g1", sender_id := .str "u1",
            sender_name := some "Alice", query_sender := none,
            message_chain := .plainStr "hello" }] :=
  (c2_group_message_persistence _ _ rfl).1 ⟨by decide, by decide⟩

/-- Claim C3: with the store initialized and the backend commit succeeding,
a bot-response event persists exactly one record — message equal to the
optional prefix followed by the optional response body, `is_bot_message =
true`, nickname the constant `LangBot`, and `user_id` the adapter's bot
account id when resolvable, else the sentinel `bot` — precisely when bot
messages are included, the launcher type is `group`, the group passes the
filter, and the combined text is not empty or whitespace-only; a
non-`group` launcher type yields no record regardless of policy or backend
outcome. -/
theorem c3_bot_response_persistence (st : PluginState) (e : BotResponseEvent)
    (hready : st.session_factory = true) :
    (st.include_bot_messages = true ∧ e.launcher_type = "group" ∧
        should_log_group st e.launcher_id = true ∧
        pyStrip (bot_full_response e) ≠ "" →
      (on_normal_message_responded st true e).records
        = st.records ++ [botRecordOf e]) ∧
    (¬ (st.include_bot_messages = true ∧ e.launcher_type = "group" ∧
          should_log_group st e.launcher_id = true ∧
          pyStrip (bot_full_response e) ≠ "") →
      (on_normal_message_responded st true e).records = st.records) ∧
    (bot_full_response e = e.prefixText.getD "" ++ e.response_text.getD "") ∧
    (∀ ok : Bool, e.launcher_type ≠ "group" →
      on_normal_message_responded st ok e = st) := by
  refine ⟨?_, ?_, bot_full_response_eq e, ?_⟩
  · rintro ⟨hinc, htype, hlog, htext⟩
    unfold on_normal_message_responded save_chat_record
    split_ifs <;> simp_all [botRecordOf]
  · intro h
    unfold on_normal_message_responded save_chat_record
    split_ifs <;> simp_all
  · intro ok htype
    unfold on_normal_message_responded
    split_ifs <;> simp_all

/-- Witness for C3: end-to-end scenario 3 of the spec — launcher type
`group`, prefix `[bot] `, body `hi`, no resolvable adapter id. -/
theorem c3_bot_response_persistence_witness :
    (on_normal_message_responded
          { engine := true, session_factory := true,
            database_url := "sqlite+aiosqlite:///./chat_logs.db",
            database_name := "langbot_chat", include_bot_messages := true,
            group_whitelist := [], group_blacklist := [], records := [] }
          true
          { launcher_type := "group", launcher_id := .str "g1",
            prefixText := some "[bot] ", response_text := some "hi",
            adapter_bot_account_id := none }).records
      = [] ++ [botRecordOf
          { launcher_type := "group", launcher_id := .str "g1",
            prefixText := some "[bot] ", response_text := some "hi",
            adapter_bot_account_id := none }] :=
  (c3_bot_response_persistence _ _ rfl).1 ⟨rfl, rfl, by decide, by decide⟩

lemma pyStrip_ne_of (s : String) (h : pyStrip s ≠ "") : s ≠ "" := by
  intro hs
  subst hs
  exact h rfl

lemma group_handler_records (st : PluginState) (ok : Bool)
    (e : GroupMessageEvent) :
    (on_group_message_received st ok e).records = st.records ∨
    ((on_group_message_received st ok e).records
        = st.records ++ [groupRecordOf e] ∧
      pyStrip (extract_message_text e.message_chain) ≠ "") := by
  unfold on_group_message_received save_chat_record
  split_ifs <;>
    first
      | exact Or.inl rfl
      | exact Or.inr ⟨by simp [groupRecordOf], by assumption⟩

lemma bot_handler_records (st : PluginState) (ok : Bool)
    (e : BotResponseEvent) :
    (on_normal_message_responded st ok e).records = st.records ∨
    ((on_normal_message_responded st ok e).records
        = st.records ++ [botRecordOf e] ∧
      pyStrip (bot_full_response e) ≠ "") := by
  unfold on_normal_message_responded save_chat_record
  split_ifs <;>
    first
      | exact Or.inl rfl
      | exact Or.inr ⟨by simp [botRecordOf], by assumption⟩

/-- A stored record whose message text is non-empty and not
whitespace-only. -/
def recordMsgOk (r : ChatRecord) : Prop :=
  r.message ≠ "" ∧ pyStrip r.message ≠ ""

/-- A stored record with non-empty identifier fields and non-empty,
not-whitespace-only message text. -/
def recordOk (r : ChatRecord) : Prop :=
  r.user_id ≠ "" ∧ r.group_id ≠ "" ∧ r.message ≠ "" ∧ pyStrip r.message ≠ ""

/-- The string forms of an event's identifier fields are non-empty (for a
bot response, the resolved bot user id — adapter account id or the sentinel
`bot` — and the launcher id). -/
def eventIdsNonEmpty : InEvent → Prop
  | .group e => pyIdStr e.sender_id ≠ "" ∧ pyIdStr e.launcher_id ≠ ""
  | .bot e =>
      pyIdStr (resolve_bot_user_id e) ≠ "" ∧ pyIdStr e.launcher_id ≠ ""

/-- Counterexample to claim C6 as stated: the handlers never validate the
identifier fields, so an event whose sender id is the empty string stores a
record whose `user_id` is empty. -/
theorem c6_counterexample :
    ∃ r, r ∈ (on_group_message_received
          { engine := true, session_factory := true,
            database_url := "sqlite+aiosqlite:///./chat_logs.db",
            database_name := "langbot_chat", include_bot_messages := true,
            group_whitelist := [], group_blacklist := [], records := [] }
          true
          { launcher_id := .str "g1", sender_id := .str "",
            sender_name := none, query_sender := none,
            message_chain := .plainStr "hello" }).records ∧
      r.user_id = "" :=
  ⟨{ user_id := "", nickname := none, message := "hello",
     group_id := "g1", is_bot_message := false }, by decide, rfl⟩

/-- Any predicate on stored records is preserved by a run of events,
provided it holds of the initial records and of every record an event of
the run can append (given that record's non-blank-after-strip guard). -/
lemma runEvents_invariant (P : ChatRecord → Prop)
    (evs : List (Bool × InEvent)) (st : PluginState)
    (h0 : ∀ r ∈ st.records, P r)
    (hstep : ∀ p ∈ evs,
      (∀ e, p.2 = InEvent.group e →
        pyStrip (extract_message_text e.message_chain) ≠ "" →
        P (groupRecordOf e)) ∧
      (∀ e, p.2 = InEvent.bot e →
        pyStrip (bot_full_response e) ≠ "" → P (botRecordOf e))) :
    ∀ r ∈ (runEvents st evs).records, P r := by
  induction evs generalizing st with
  | nil => simpa [runEvents] using h0
  | cons p rest ih =>
    rcases p with ⟨ok, ev⟩
    simp only [runEvents]
    apply ih
    · intro r hr
      have hstep0 := hstep (ok, ev) (List.mem_cons_self _ _)
      cases ev with
      | group e =>
        rcases group_handler_records st ok e with h | ⟨h, hne⟩ <;>
          simp only [handleEvent] at hr <;> rw [h] at hr
        · exact h0 r hr
        · rcases List.mem_append.mp hr with h' | h'
          · exact h0 r h'
          · rcases List.mem_singleton.mp h'
            exact hstep0.1 e rfl hne
      | bot e =>
        rcases bot_handler_records st ok e with h | ⟨h, hne⟩ <;>
          simp only [handleEvent] at hr <;> rw [h] at hr
        · exact h0 r hr
        · rcases List.mem_append.mp hr with h' | h'
          · exact h0 r h'
          · rcases List.mem_singleton.mp h'
            exact hstep0.2 e rfl hne
    · intro q hq
      exact hstep q (List.mem_cons_of_mem _ hq)

/-- Claim C6, amended: over every sequence of handled events and every
input event shape, every stored record has non-empty, not-whitespace-only
message text (unconditionally — both guards strip before testing
emptiness); non-emptiness of `user_id` and `group_id` is not enforced by
the code and holds additionally whenever the string forms of every handled
event's identifier fields are non-empty.  Both parts assume the records
already stored satisfy the respective invariant (e.g. an empty store). -/
theorem c6_stored_record_invariant (evs : List (Bool × InEvent))
    (st : PluginState) :
    ((∀ r ∈ st.records, recordMsgOk r) →
      ∀ r ∈ (runEvents st evs).records, recordMsgOk r) ∧
    ((∀ r ∈ st.records, recordOk r) →
      (∀ p ∈ evs, eventIdsNonEmpty p.2) →
      ∀ r ∈ (runEvents st evs).records, recordOk r) := by
  constructor
  · intro h0
    apply runEvents_invariant recordMsgOk evs st h0
    intro p hp
    refine ⟨fun e he hne => ?_, fun e he hne => ?_⟩
    · exact ⟨pyStrip_ne_of _ hne, hne⟩
    · exact ⟨pyStrip_ne_of _ hne, hne⟩
  · intro h0 hev
    apply runEvents_invariant recordOk evs st h0
    intro p hp
    have hid := hev p hp
    refine ⟨fun e he hne => ?_, fun e he hne => ?_⟩
    · rw [he] at hid
      rcases hid with ⟨hu, hg⟩
      exact ⟨hu, hg, pyStrip_ne_of _ hne, hne⟩
    · rw [he] at hid
      rcases hid with ⟨hu, hg⟩
      exact ⟨hu, hg, pyStrip_ne_of _ hne, hne⟩

/-- Witness for the amended C6, on the very run the counterexample is
about: a group message whose sender id is the empty string stores a record
(with empty `user_id`), and the message invariant still holds for it. -/
theorem c6_stored_record_invariant_witness :
    recordMsgOk
      { user_id := "", nickname := none, message := "hello",
        group_id := "g1", is_bot_message := false } :=
  (c6_stored_record_invariant
      [(true, .group
          { launcher_id := .str "g1", sender_id := .str "",
            sender_name := none, query_sender := none,
            message_chain := .plainStr "hello" })]
      { engine := true, session_factory := true,
        database_url := "sqlite+aiosqlite:///./chat_logs.db",
        database_name := "langbot_chat", include_bot_messages := true,
        group_whitelist := [], group_blacklist := [], records := [] }).1
    (by simp)
    { user_id := "", nickname := none, message := "hello",
      group_id := "g1", is_bot_message := false }
    (by decide)

lemma group_handler_fail (st : PluginState) (e : GroupMessageEvent) :
    on_group_message_received st false e = st := by
  unfold on_group_message_received
  split_ifs <;> simp [save_chat_record_fail]

lemma bot_handler_fail (st : PluginState) (e : BotResponseEvent) :
    on_normal_message_responded st false e = st := by
  unfold on_normal_message_responded
  split_ifs <;> simp [save_chat_record_fail]

lemma group_handler_noinit (st : PluginState) (e : GroupMessageEvent)
    (h : st.session_factory = false) (ok : Bool) :
    on_group_message_received st ok e = st := by
  unfold on_group_message_received
  split_ifs <;> simp [save_chat_record_noinit st h]

lemma bot_handler_noinit (st : PluginState) (e : BotResponseEvent)
    (h : st.session_factory = false) (ok : Bool) :
    on_normal_message_responded st ok e = st := by
  unfold on_normal_message_responded
  split_ifs <;> simp [save_chat_record_noinit st h]

/-- Claim C7: a failed append — whether the backend commit raises
(`storeOk = false`) or the store was never initialized — leaves the plugin
state unchanged and the handler returns normally (it is a total function),
and a subsequent event is processed exactly as if the dropped event had
never occurred, so it can still be recorded. -/
theorem c7_append_failure_isolated (st : PluginState) (ev ev2 : InEvent)
    (b : Bool) :
    handleEvent st false ev = st ∧
    (st.session_factory = false → handleEvent st b ev = st) ∧
    handleEvent (handleEvent st false ev) true ev2
      = handleEvent st true ev2 := by
  have h1 : handleEvent st false ev = st := by
    cases ev with
    | group e => exact group_handler_fail st e
    | bot e => exact bot_handler_fail st e
  refine ⟨h1, ?_, by rw [h1]⟩
  intro hsf
  cases ev with
  | group e => exact group_handler_noinit st e hsf b
  | bot e => exact bot_handler_noinit st e hsf b

/-- Witness for C7: an append attempted before initialization
(`session_factory` unset) leaves the concrete state unchanged. -/
theorem c7_append_failure_isolated_witness :
    handleEvent
        { engine := false, session_factory := false,
          database_url := "sqlite+aiosqlite:///./chat_logs.db",
          database_name := "langbot_chat", include_bot_messages := true,
          group_whitelist := [], group_blacklist := [], records := [] }
        true
        (.group
          { launcher_id := .str "g1", sender_id := .str "u1",
            sender_name := none, query_sender := none,
            message_chain := .plainStr "hello" })
      = { engine := false, session_factory := false,
          database_url := "sqlite+aiosqlite:///./chat_logs.db",
          database_name := "langbot_chat", include_bot_messages := true,
          group_whitelist := [], group_blacklist := [], records := [] } :=
  (c7_append_failure_isolated _
      (.group
        { launcher_id := .str "g1", sender_id := .str "u1",
          sender_name := none, query_sender := none,
          message_chain := .plainStr "hello" })
      (.group
        { launcher_id := .str "g1", sender_id := .str "u1",
          sender_name := none, query_sender := none,
          message_chain := .plainStr "hello" })
      true).2.1 rfl

/-- Claim C8: any failure during initialization — engine creation or schema
creation — makes `initialize` surface an error to the caller (never
swallowed), initialization succeeds exactly when the backend does, and a
successful initialization is what sets the engine and session factory. -/
theorem c8_initialization_failure_propagates (st : PluginState)
    (cfg : PluginConfig) (o : DbOutcome) :
    (∀ msg, (o = .engineFail msg ∨ o = .schemaFail msg) →
      initializePlugin st cfg o = .error msg) ∧
    ((∃ st', initializePlugin st cfg o = .ok st') ↔ o = .ok) ∧
    (∀ st', initializePlugin st cfg o = .ok st' →
      st'.session_factory = true ∧ st'.engine = true) := by
  cases o <;> simp [initializePlugin, init_database]

/-- Witness for C8: a schema-creation failure is propagated verbatim. -/
theorem c8_initialization_failure_propagates_witness :
    initializePlugin
        { engine := false, session_factory := false,
          database_url := "sqlite+aiosqlite:///./chat_logs.db",
          database_name := "langbot_chat", include_bot_messages := true,
          group_whitelist := [], group_blacklist := [], records := [] }
        { database_url := none, database_name := none,
          include_bot_messages := none, group_whitelist := none,
          group_blacklist := none }
        (.schemaFail "table creation failed")
      = .error "table creation failed" :=
  (c8_initialization_failure_propagates _ _ _).1 "table creation failed"
    (Or.inr rfl)

/-- Counterexample to claim C9 as stated: `destroy` never clears
`self.engine`, so on a state whose engine handle is set, the first call
disposes the engine and the second call — the handle still being set —
performs a `dispose` call on the underlying engine again, rather than
performing none. -/
theorem c9_counterexample :
    (destroy
        { engine := true, session_factory := true,
          database_url := "sqlite+aiosqlite:///./chat_logs.db",
          database_name := "langbot_chat", include_bot_messages := true,
          group_whitelist := [], group_blacklist := [], records := [] }).2
        = 1 ∧
    (destroy (destroy
        { engine := true, session_factory := true,
          database_url := "sqlite+aiosqlite:///./chat_logs.db",
          database_name := "langbot_chat", include_bot_messages := true,
          group_whitelist := [], group_blacklist := [], records := [] }).1).2
        = 1 :=
  ⟨rfl, rfl⟩

/-- Claim C9, amended: `destroy` is safe without initialization (no engine
handle means no `dispose` call and no error), it never raises (total, the
source catches and logs every exception), and a second call leaves the
state unchanged and behaves exactly like the first — including repeating
the `dispose` call whenever the engine handle is set, since the handle is
never cleared. -/
theorem c9_destroy_idempotent_state (st : PluginState) :
    (st.engine = false → destroy st = (st, 0)) ∧
    (destroy (destroy st).1).1 = (destroy st).1 ∧
    (destroy (destroy st).1).2 = (destroy st).2 := by
  unfold destroy
  split_ifs <;> simp_all

/-- Witness for the amended C9: on a never-initialized state, `destroy` is
a no-op performing no `dispose` call. -/
theorem c9_destroy_idempotent_state_witness :
    destroy
        { engine := false, session_factory := false,
          database_url := "sqlite+aiosqlite:///./chat_logs.db",
          database_name := "langbot_chat", include_bot_messages := true,
          group_whitelist := [], group_blacklist := [], records := [] }
      = ({ engine := false, session_factory := false,
           database_url := "sqlite+aiosqlite:///./chat_logs.db",
           database_name := "langbot_chat", include_bot_messages := true,
           group_whitelist := [], group_blacklist := [], records := [] }, 0) :=
  (c9_destroy_idempotent_state _).1 rfl

/-- Claim C10: stored message text is never trimmed — any record a
group-message event adds carries exactly the extracted text, any record a
bot-response event adds carries exactly the concatenated response, and that
response is exactly the optional prefix followed by the optional body;
stripping is used only for the emptiness test, never on the stored text. -/
theorem c10_no_trimming (st : PluginState) (ok : Bool)
    (eg : GroupMessageEvent) (eb : BotResponseEvent) :
    (∀ r ∈ (on_group_message_received st ok eg).records,
      r ∈ st.records ∨ r.message = extract_message_text eg.message_chain) ∧
    (∀ r ∈ (on_normal_message_responded st ok eb).records,
      r ∈ st.records ∨ r.message = bot_full_response eb) ∧
    bot_full_response eb = eb.prefixText.getD "" ++ eb.response_text.getD ""
    := by
  refine ⟨?_, ?_, bot_full_response_eq eb⟩
  · intro r hr
    rcases group_handler_records st ok eg with h | ⟨h, -⟩ <;> rw [h] at hr
    · exact Or.inl hr
    · rcases List.mem_append.mp hr with h' | h'
      · exact Or.inl h'
      · rcases List.mem_singleton.mp h'
        exact Or.inr rfl
  · intro r hr
    rcases bot_handler_records st ok eb with h | ⟨h, -⟩ <;> rw [h] at hr
    · exact Or.inl hr
    · rcases List.mem_append.mp hr with h' | h'
      · exact Or.inl h'
      · rcases List.mem_singleton.mp h'
        exact Or.inr rfl

/-- Witness for C10: a message whose text has leading and trailing
whitespace is stored verbatim (here the starting store is empty, so the
record must carry the untrimmed text). -/
theorem c10_no_trimming_witness :
    ({ user_id := "u1", nickname := none, message := "  hi  ",
       group_id := "g1", is_bot_message := false } : ChatRecord) ∈
        ({ engine := true, session_factory := true,
           database_url := "sqlite+aiosqlite:///./chat_logs.db",
           database_name := "langbot_chat", include_bot_messages := true,
           group_whitelist := [], group_blacklist := [],
           records := [] } : PluginState).records ∨
    ({ user_id := "u1", nickname := none, message := "  hi  ",
       group_id := "g1", is_bot_message := false } : ChatRecord).message
      = extract_message_text
          ({ launcher_id := .str "g1", sender_id := .str "u1",
             sender_name := none, query_sender := none,
             message_chain := .plainStr "  hi  " } :
            GroupMessageEvent).message_chain :=
  (c10_no_trimming
      { engine := true, session_factory := true,
        database_url := "sqlite+aiosqlite:///./chat_logs.db",
        database_name := "langbot_chat", include_bot_messages := true,
        group_whitelist := [], group_blacklist := [], records := [] }
      true
      { launcher_id := .str "g1", sender_id := .str "u1",
        sender_name := none, query_sender := none,
        message_chain := .plainStr "  hi  " }
      { launcher_type := "group", launcher_id := .str "g1",
        prefixText := none, response_text := none,
        adapter_bot_account_id := none }).1
    { user_id := "u1", nickname := none, message := "  hi  ",
      group_id := "g1", is_bot_message := false }
    (by decide)
